import Mathlib

/-!
Verification of the fluid-simulation buffer manager in
src/examples/fluid_simulation.c: the dynamic multi-channel buffer
(dynamic_buffer_t), the uniform slots (uniform_t), and the
resolution-clamping logic (get_valid_dimensions, get_preferred_dimensions,
init_sizes).

Machine integers are modelled as Nat with explicit reduction modulo 2^32
where the C code performs uint32 arithmetic.  C float arithmetic in the
dimension-clamping functions is idealized as exact real arithmetic.
GPU buffers are modelled by their byte size together with their contents
(one Nat per byte); commands recorded on an encoder or queue are modelled
as explicit lists of operations.
-/

namespace FluidSim

/-- MAX_DIMENSIONS from fluid_simulation.c line 23. -/
def MAX_DIMENSIONS : ℕ := 3

/-- 2^32, the modulus of C uint32 arithmetic. -/
def U32 : ℕ := 2 ^ 32

/-- Reduce a natural number as a C uint32 value. -/
def u32 (n : ℕ) : ℕ := n % U32

/-- C uint32 subtraction of one: `d - 1` computed in uint32 arithmetic
(wraps to 2^32 - 1 when d = 0). -/
def u32sub1 (d : ℕ) : ℕ := (d + U32 - 1) % U32

/-- A GPU buffer: its byte size and its contents, one entry per byte.
Models wgpu_buffer_t (a WGPUBuffer handle plus its recorded size). -/
structure wgpu_buffer_t where
  size : ℕ
  content : List ℕ
deriving DecidableEq

/-- dynamic_buffer_t from fluid_simulation.c: an N-channel field held as
one same-sized GPU buffer per channel. -/
structure dynamic_buffer_t where
  dims : ℕ
  buffer_size : ℕ
  w : ℕ
  h : ℕ
  buffers : List wgpu_buffer_t
deriving DecidableEq

/-- dynamic_buffer_init: sets dims, buffer_size = w*h*4 (uint32), w, h, then
asserts dims <= MAX_DIMENSIONS and allocates one buffer of buffer_size bytes
per channel.  The assertion failure is modelled as returning none.
WebGPU zero-initializes freshly created buffers. -/
def dynamic_buffer_init (dims w h : ℕ) : Option dynamic_buffer_t :=
  let buffer_size := u32 (w * h * 4)
  if dims ≤ MAX_DIMENSIONS then
    some { dims := dims
           buffer_size := buffer_size
           w := w
           h := h
           buffers := List.replicate dims ⟨buffer_size, List.replicate buffer_size 0⟩ }
  else
    none

/-- One wgpuCommandEncoderCopyBufferToBuffer command: source channel index,
source offset, destination channel index, destination offset, byte count. -/
structure copy_cmd_t where
  src : ℕ
  src_off : ℕ
  dst : ℕ
  dst_off : ℕ
  size : ℕ
deriving DecidableEq

/-- dynamic_buffer_copy_to: for i in 0 .. MAX(self.dims, other.dims), records
a copy of self channel MIN(i, self.dims - 1) into other channel
MIN(i, other.dims - 1), both at offset 0, of self.buffer_size bytes.
The channel-index subtractions are C uint32 subtractions. -/
def dynamic_buffer_copy_to (self other : dynamic_buffer_t) : List copy_cmd_t :=
  (List.range (max self.dims other.dims)).map fun i =>
    { src := min i (u32sub1 self.dims)
      src_off := 0
      dst := min i (u32sub1 other.dims)
      dst_off := 0
      size := self.buffer_size }

/-- A zero-filled staging region of n bytes (the malloc + memset in
dynamic_buffer_clear). -/
def zero_data (n : ℕ) : List ℕ := List.replicate n 0

/-- Writing data into buffer contents at a byte offset
(wgpu_queue_write_buffer semantics on contents). -/
def write_bytes (content : List ℕ) (offset : ℕ) (data : List ℕ) : List ℕ :=
  content.take offset ++ data ++ content.drop (offset + data.length)

/-- Apply a host-to-device write to a buffer. -/
def buffer_write (b : wgpu_buffer_t) (offset : ℕ) (data : List ℕ) : wgpu_buffer_t :=
  { b with content := write_bytes b.content offset data }

/-- The loop of dynamic_buffer_clear: for i in 0 .. dims, write buffer_size
zero bytes at offset 0 of channel i.  Modelled structurally: the first
`dims` channels of the list are overwritten. -/
def clear_channels (buffer_size : ℕ) : ℕ → List wgpu_buffer_t → List wgpu_buffer_t
  | _, [] => []
  | 0, bufs => bufs
  | n + 1, b :: rest =>
      buffer_write b 0 (zero_data buffer_size) :: clear_channels buffer_size n rest

/-- The host-to-device writes issued by dynamic_buffer_clear: one zero-filled
write of one buffer size, at offset 0, per channel. -/
def dynamic_buffer_clear_writes (self : dynamic_buffer_t) : List (ℕ × ℕ × List ℕ) :=
  (List.range self.dims).map fun i => (i, 0, zero_data self.buffer_size)

/-- dynamic_buffer_clear: resulting buffer state. -/
def dynamic_buffer_clear (self : dynamic_buffer_t) : dynamic_buffer_t :=
  { self with buffers := clear_channels self.buffer_size self.dims self.buffers }

/-- dynamic_buffers_init from fluid_simulation.c lines 179-203: the Field
Registry initialization, with the channel count of each init call exactly as
in the source (velocity 2, velocity0 2, dye 3, dye0 4, divergence 1,
divergence0 1, pressure 1, pressure0 1, vorticity 1). -/
def dynamic_buffers_init (grid_w grid_h dye_w dye_h : ℕ) :
    Option (List dynamic_buffer_t) := do
  let velocity ← dynamic_buffer_init 2 grid_w grid_h
  let velocity0 ← dynamic_buffer_init 2 grid_w grid_h
  let dye ← dynamic_buffer_init 3 dye_w dye_h
  let dye0 ← dynamic_buffer_init 4 dye_w dye_h
  let divergence ← dynamic_buffer_init 1 grid_w grid_h
  let divergence0 ← dynamic_buffer_init 1 grid_w grid_h
  let pressure ← dynamic_buffer_init 1 grid_w grid_h
  let pressure0 ← dynamic_buffer_init 1 grid_w grid_h
  let vorticity ← dynamic_buffer_init 1 grid_w grid_h
  pure [velocity, velocity0, dye, dye0, divergence, divergence0,
        pressure, pressure0, vorticity]

/-- uniform_type_t from fluid_simulation.c. -/
inductive uniform_type_t where
  | UNIFORM_TIME
  | UNIFORM_DT
  | UNIFORM_MOUSE_INFOS
  | UNIFORM_GRID_SIZE
  | UNIFORM_SIM_SPEED
  | UNIFORM_VELOCITY_ADD_INTENSITY
  | UNIFORM_VELOCITY_ADD_RADIUS
  | UNIFORM_VELOCITY_DIFFUSION
  | UNIFORM_DYE_ADD_INTENSITY
  | UNIFORM_DYE_ADD_RADIUS
  | UNIFORM_DYE_ADD_DIFFUSION
  | UNIFORM_VISCOSITY
  | UNIFORM_VORTICITY
  | UNIFORM_CONTAIN_FLUID
  | UNIFORM_MOUSE_TYPE
  | UNIFORM_RENDER_INTENSITY
  | UNIFORM_RENDER_DYE
deriving DecidableEq

/-- uniform_t from fluid_simulation.c: element count `size`, the two update
flags, and the GPU buffer (none when never allocated; the enclosing static
struct is zero-initialized, so an unallocated buffer is a null handle).
The optional value passed around is the pointed-to data as a byte list. -/
structure uniform_t where
  type : uniform_type_t
  size : ℕ
  always_update : Bool
  needs_update : Bool
  buffer : Option wgpu_buffer_t
deriving DecidableEq

/-- uniform_init: records type and element count, clears needs_update, sets
always_update = (size == 1), and, only when size > 0 and the initial value
is non-null, creates a uniform buffer of size*4 bytes initialized with
size*4 bytes read from the value. -/
def uniform_init (type : uniform_type_t) (size : ℕ) (value : Option (List ℕ)) :
    uniform_t :=
  { type := type
    size := size
    needs_update := false
    always_update := size == 1
    buffer :=
      match value with
      | some v => if 0 < size then some ⟨size * 4, v.take (size * 4)⟩ else none
      | none => none }

/-- uniform_update: when needs_update, always_update, or a non-null value
holds, issues wgpu_queue_write_buffer(buffer, offset 0, value, byte count
self.size) and clears needs_update; otherwise does nothing.  The returned
option is the issued write as (offset, byte count). -/
def uniform_update (self : uniform_t) (value : Option (List ℕ)) :
    uniform_t × Option (ℕ × ℕ) :=
  if self.needs_update || self.always_update || value.isSome then
    ({ self with needs_update := false }, some (0, self.size))
  else
    (self, none)

/-! Helper lemmas. -/

lemma u32sub1_eq_sub_one (d : ℕ) (h1 : 1 ≤ d) (h2 : d < U32) : u32sub1 d = d - 1 := by
  have hp : U32 = 4294967296 := by norm_num [U32]
  simp only [u32sub1, hp] at *
  omega

lemma clear_channels_content (bs : ℕ) : ∀ bufs : List wgpu_buffer_t,
    (∀ b ∈ bufs, b.content.length = bs) →
    ∀ b ∈ clear_channels bs bufs.length bufs, b.content = zero_data bs := by
  intro bufs
  induction bufs with
  | nil => intro _ b hb; simp [clear_channels] at hb
  | cons hd tl ih =>
      intro hlen b hb
      simp only [List.length_cons, clear_channels, List.mem_cons] at hb
      rcases hb with hb | hb
      · subst hb
        have hhd : hd.content.length = bs := hlen hd (by simp)
        simp [buffer_write, write_bytes, zero_data, hhd]
      · exact ih (fun b hbm => hlen b (by simp [hbm])) b hb

/-- Claim C1: in dynamic_buffers_init the dye-prev buffer (dye0) is
initialized with channel count 4, which exceeds MAX_DIMENSIONS = 3, so the
assertion dims <= MAX_DIMENSIONS inside dynamic_buffer_init fails on that
reachable call and Field Registry initialization cannot complete, for every
grid and dye resolution. -/
theorem C1_dye0_assertion_violated :
    ¬ 4 ≤ MAX_DIMENSIONS ∧
    (∀ w h : ℕ, dynamic_buffer_init 4 w h = none) ∧
    ∀ grid_w grid_h dye_w dye_h : ℕ,
      dynamic_buffers_init grid_w grid_h dye_w dye_h = none := by
  refine ⟨by decide, fun w h => by simp [dynamic_buffer_init, MAX_DIMENSIONS], ?_⟩
  intro gw gh dw dh
  simp [dynamic_buffers_init, dynamic_buffer_init, MAX_DIMENSIONS]

/-- Source DynamicBuffer for the C2 counterexample: 1 channel, 1x2 cells,
8-byte channel buffers. -/
def copy_src_ex : dynamic_buffer_t :=
  ⟨1, 8, 1, 2, [⟨8, List.replicate 8 0⟩]⟩

/-- Destination DynamicBuffer for the C2 counterexample: 1 channel, 1x1
cells, 4-byte channel buffers. -/
def copy_dst_ex : dynamic_buffer_t :=
  ⟨1, 4, 1, 1, [⟨4, List.replicate 4 0⟩]⟩

/-- Claim C2, counterexample: between an 8-byte-per-channel source and a
4-byte-per-channel destination (both with channel count 1), the single copy
command issued by copyTo transfers the SOURCE buffer size (8 bytes), not
the smaller of the two buffer sizes (4 bytes), refuting the claim as
stated. -/
theorem C2_counterexample :
    dynamic_buffer_init 1 1 2 = some copy_src_ex ∧
    dynamic_buffer_init 1 1 1 = some copy_dst_ex ∧
    ¬ ∀ c ∈ dynamic_buffer_copy_to copy_src_ex copy_dst_ex,
        c.size = min copy_src_ex.buffer_size copy_dst_ex.buffer_size := by
  decide

/-- Claim C2, amended: for channel counts d1, d2 in 1..3, copyTo issues
exactly max(d1, d2) copy commands, the i-th copying source channel
min(i, d1-1) to destination channel min(i, d2-1) at offset 0, each
transferring the SOURCE buffer byte size. -/
theorem C2_copy_to_commands (a b : dynamic_buffer_t)
    (ha1 : 1 ≤ a.dims) (ha2 : a.dims ≤ 3) (hb1 : 1 ≤ b.dims) (hb2 : b.dims ≤ 3) :
    (dynamic_buffer_copy_to a b).length = max a.dims b.dims ∧
    ∀ i (hi : i < (dynamic_buffer_copy_to a b).length),
      (dynamic_buffer_copy_to a b).get ⟨i, hi⟩
        = ⟨min i (a.dims - 1), 0, min i (b.dims - 1), 0, a.buffer_size⟩ := by
  have hU : (4294967296 : ℕ) = U32 := by norm_num [U32]
  have hsa : u32sub1 a.dims = a.dims - 1 := u32sub1_eq_sub_one _ ha1 (by omega)
  have hsb : u32sub1 b.dims = b.dims - 1 := u32sub1_eq_sub_one _ hb1 (by omega)
  constructor
  · simp [dynamic_buffer_copy_to]
  · intro i hi
    simp [dynamic_buffer_copy_to, List.get_eq_getElem, hsa, hsb]

/-- A 3-channel DynamicBuffer used to exercise the C2 witness. -/
def copy_b_ex : dynamic_buffer_t :=
  ⟨3, 4, 1, 1, List.replicate 3 ⟨4, List.replicate 4 0⟩⟩

/-- Witness for the amended C2 theorem at channel counts 1 and 3. -/
theorem C2_copy_to_commands_witness :
    (1 ≤ copy_src_ex.dims ∧ copy_src_ex.dims ≤ 3 ∧
     1 ≤ copy_b_ex.dims ∧ copy_b_ex.dims ≤ 3) ∧
    ((dynamic_buffer_copy_to copy_src_ex copy_b_ex).length
        = max copy_src_ex.dims copy_b_ex.dims ∧
     ∀ i (hi : i < (dynamic_buffer_copy_to copy_src_ex copy_b_ex).length),
       (dynamic_buffer_copy_to copy_src_ex copy_b_ex).get ⟨i, hi⟩
         = ⟨min i (copy_src_ex.dims - 1), 0, min i (copy_b_ex.dims - 1), 0,
            copy_src_ex.buffer_size⟩) :=
  ⟨⟨by decide, by decide, by decide, by decide⟩,
   C2_copy_to_commands copy_src_ex copy_b_ex
     (by decide) (by decide) (by decide) (by decide)⟩

/-- Byte data of 4 floats, for the mouse uniform (element count 4). -/
def mouse_value_ex : List ℕ :=
  [1, 2, 3, 4, 5, 6, 7, 8, 9, 10, 11, 12, 13, 14, 15, 16]

/-- A mouse UniformSlot (element count 4) whose dirty flag has been set. -/
def mouse_uniform_ex : uniform_t :=
  { uniform_init uniform_type_t.UNIFORM_MOUSE_INFOS 4 (some mouse_value_ex) with
      needs_update := true }

/-- Claim C3: at the failing input (a dirty element-count-4 slot updated with
a non-null value), the write condition holds and uniform_update issues a
write at offset 0 and clears the dirty flag, but the issued write covers
only size = 4 bytes while the slot's GPU buffer is size*4 = 16 bytes: the
code passes the element count instead of the byte count to
wgpu_queue_write_buffer, contradicting the documented full-value update. -/
theorem C3_update_writes_wrong_byte_count :
    mouse_uniform_ex.buffer = some ⟨16, mouse_value_ex⟩ ∧
    uniform_update mouse_uniform_ex (some mouse_value_ex)
      = ({ mouse_uniform_ex with needs_update := false }, some (0, 4)) ∧
    mouse_uniform_ex.size * 4 = 16 ∧ (4 : ℕ) ≠ 16 := by
  decide

/-- Claim C6, counterexample: uniform_init with element count 7 and a null
initial value allocates no GPU buffer at all, refuting the claim that a
buffer of elementCount*4 bytes is allocated for every initial value
including null. -/
theorem C6_counterexample :
    (uniform_init uniform_type_t.UNIFORM_GRID_SIZE 7 none).buffer = none := by
  decide

/-- Claim C6, amended: for every element count at least 1, uniform_init
allocates a GPU buffer of exactly elementCount*4 bytes and uploads the
initial value into it exactly when the initial value is non-null; with a
null initial value no buffer is allocated. -/
theorem C6_uniform_init_alloc (t : uniform_type_t) (s : ℕ) (hs : 1 ≤ s) :
    (uniform_init t s none).buffer = none ∧
    ∀ v : List ℕ,
      (uniform_init t s (some v)).buffer = some ⟨s * 4, v.take (s * 4)⟩ ∧
      (uniform_init t s (some v)).size = s := by
  refine ⟨by simp [uniform_init], fun v => ⟨?_, by simp [uniform_init]⟩⟩
  simp [uniform_init, Nat.lt_of_lt_of_le Nat.zero_lt_one hs]

/-- Witness for the amended C6 theorem at element count 4. -/
theorem C6_uniform_init_alloc_witness :
    1 ≤ 4 ∧
    ((uniform_init uniform_type_t.UNIFORM_GRID_SIZE 4 none).buffer = none ∧
     ∀ v : List ℕ,
       (uniform_init uniform_type_t.UNIFORM_GRID_SIZE 4 (some v)).buffer
           = some ⟨4 * 4, v.take (4 * 4)⟩ ∧
       (uniform_init uniform_type_t.UNIFORM_GRID_SIZE 4 (some v)).size = 4) :=
  ⟨by decide, C6_uniform_init_alloc uniform_type_t.UNIFORM_GRID_SIZE 4 (by decide)⟩

/-- Claim C7: a UniformSlot initialized with element count 1 has
always_update set, so every uniform_update call on it issues a GPU write,
whatever the dirty flag holds and even when the supplied value is null. -/
theorem C7_scalar_always_writes (t : uniform_type_t) (v0 : Option (List ℕ))
    (nu : Bool) (v : Option (List ℕ)) :
    ((uniform_update { uniform_init t 1 v0 with needs_update := nu } v).2).isSome
      = true := by
  simp [uniform_update, uniform_init]

/-- Claim C8: a UniformSlot initialized with element count greater than 1,
with its dirty flag still clear, updated with a null value, is returned
unchanged and issues no GPU write. -/
theorem C8_no_write_when_clean (t : uniform_type_t) (s : ℕ)
    (v0 : Option (List ℕ)) (b : Option wgpu_buffer_t) (hs : 1 < s) :
    uniform_update { uniform_init t s v0 with buffer := b } none
      = ({ uniform_init t s v0 with buffer := b }, none) := by
  have h1 : (s == 1) = false := by
    simp only [beq_eq_false_iff_ne, ne_eq]
    omega
  simp [uniform_update, uniform_init, h1]

/-- Witness for C8 at element count 2. -/
theorem C8_no_write_when_clean_witness :
    1 < 2 ∧
    uniform_update
        { uniform_init uniform_type_t.UNIFORM_MOUSE_INFOS 2 none with
            buffer := none } none
      = ({ uniform_init uniform_type_t.UNIFORM_MOUSE_INFOS 2 none with
             buffer := none }, none) :=
  ⟨by decide,
   C8_no_write_when_clean uniform_type_t.UNIFORM_MOUSE_INFOS 2 none none
     (by decide)⟩

/-- Claim C9: clear issues, for each of the dims channels, one
host-to-device write of a zero-filled region of one buffer size at offset
0, and afterwards every byte of every channel buffer equals zero (for any
DynamicBuffer whose channel list matches its dims and whose channel
contents have the recorded buffer size). -/
theorem C9_clear_zeroes (d : dynamic_buffer_t)
    (hlen : d.buffers.length = d.dims)
    (hsz : ∀ b ∈ d.buffers, b.content.length = d.buffer_size) :
    ((dynamic_buffer_clear_writes d).length = d.dims ∧
     ∀ wr ∈ dynamic_buffer_clear_writes d,
       wr.2.1 = 0 ∧ wr.2.2 = zero_data d.buffer_size) ∧
    ∀ b ∈ (dynamic_buffer_clear d).buffers, ∀ x ∈ b.content, x = 0 := by
  refine ⟨⟨by simp [dynamic_buffer_clear_writes], ?_⟩, ?_⟩
  · intro wr hwr
    simp only [dynamic_buffer_clear_writes, List.mem_map] at hwr
    obtain ⟨i, _, rfl⟩ := hwr
    exact ⟨rfl, rfl⟩
  · intro b hb x hx
    have hc : b.content = zero_data d.buffer_size := by
      refine clear_channels_content d.buffer_size d.buffers hsz b ?_
      simpa [dynamic_buffer_clear, hlen] using hb
    rw [hc] at hx
    exact List.eq_of_mem_replicate hx

/-- A concrete 1-channel DynamicBuffer with nonzero contents, for the C9
witness. -/
def clear_ex : dynamic_buffer_t := ⟨1, 2, 1, 1, [⟨2, [5, 7]⟩]⟩

/-- Witness for C9 on a concrete buffer holding nonzero bytes. -/
theorem C9_clear_zeroes_witness :
    (clear_ex.buffers.length = clear_ex.dims ∧
     ∀ b ∈ clear_ex.buffers, b.content.length = clear_ex.buffer_size) ∧
    (((dynamic_buffer_clear_writes clear_ex).length = clear_ex.dims ∧
      ∀ wr ∈ dynamic_buffer_clear_writes clear_ex,
        wr.2.1 = 0 ∧ wr.2.2 = zero_data clear_ex.buffer_size) ∧
     ∀ b ∈ (dynamic_buffer_clear clear_ex).buffers, ∀ x ∈ b.content, x = 0) :=
  ⟨⟨by decide, by decide⟩, C9_clear_zeroes clear_ex (by decide) (by decide)⟩

/-! Resolution clamping (get_valid_dimensions, get_preferred_dimensions,
init_sizes).  The C float arithmetic is idealized as exact real arithmetic;
the uint32 product w*h*4 in the buffer-size test keeps its C wrap-around. -/

/-- get_valid_dimensions from fluid_simulation.c lines 300-323.  down_ratio
starts at 1, is replaced by sqrt(max_buffer_size / (w*h*4)) when the
(uint32) implied buffer size reaches max_buffer_size, and is then
overwritten by max_canvas_size/w when w exceeds max_canvas_size, else by
max_canvas_size/h when h does.  Returns (floor(w*ratio), floor(h*ratio)). -/
noncomputable def get_valid_dimensions (w h max_buffer_size max_canvas_size : ℕ) :
    ℕ × ℕ :=
  let wrapped := u32 (w * h * 4)
  let ratio1 : ℝ :=
    if max_buffer_size ≤ wrapped then
      Real.sqrt ((max_buffer_size : ℝ) / (wrapped : ℝ))
    else 1
  let down_ratio : ℝ :=
    if max_canvas_size < w then (max_canvas_size : ℝ) / (w : ℝ)
    else if max_canvas_size < h then (max_canvas_size : ℝ) / (h : ℝ)
    else ratio1
  (⌊(w : ℝ) * down_ratio⌋.toNat, ⌊(h : ℝ) * down_ratio⌋.toNat)

/-- get_preferred_dimensions from fluid_simulation.c lines 326-346: fit the
requested size to the surface aspect ratio, then clamp with
get_valid_dimensions. -/
noncomputable def get_preferred_dimensions
    (size surface_w surface_h max_buffer_size max_canvas_size : ℕ) : ℕ × ℕ :=
  let aspect : ℝ := (surface_w : ℝ) / (surface_h : ℝ)
  if surface_h < surface_w then
    get_valid_dimensions (⌊(size : ℝ) * aspect⌋.toNat) size
      max_buffer_size max_canvas_size
  else
    get_valid_dimensions size (⌊(size : ℝ) / aspect⌋.toNat)
      max_buffer_size max_canvas_size

/-- settings.grid_size default (512). -/
def settings_grid_size : ℕ := 512

/-- settings.dye_size default (2048). -/
def settings_dye_size : ℕ := 2048

/-- init_sizes from fluid_simulation.c lines 348-374: the (grid_w, grid_h)
and (dye_w, dye_h) pairs computed from the device limits. -/
noncomputable def init_sizes (surface_w surface_h : ℕ)
    (max_buffer_size max_canvas_size : ℕ) : (ℕ × ℕ) × (ℕ × ℕ) :=
  (get_preferred_dimensions settings_grid_size surface_w surface_h
     max_buffer_size max_canvas_size,
   get_preferred_dimensions settings_dye_size surface_w surface_h
     max_buffer_size max_canvas_size)

/-! Arithmetic helper lemmas for the clamping proofs. -/

lemma toNat_floor_le_of_le {n : ℕ} {x : ℝ} (hx : x ≤ (n : ℝ)) : ⌊x⌋.toNat ≤ n := by
  rw [Int.toNat_le]
  calc ⌊x⌋ ≤ ⌊(n : ℝ)⌋ := Int.floor_le_floor hx
    _ = (n : ℤ) := Int.floor_natCast n

lemma toNat_floor_cast_le {x : ℝ} (hx : 0 ≤ x) : ((⌊x⌋.toNat : ℕ) : ℝ) ≤ x := by
  have h0 : 0 ≤ ⌊x⌋ := Int.floor_nonneg.2 hx
  have h1 : ((⌊x⌋.toNat : ℕ) : ℝ) = ((⌊x⌋ : ℤ) : ℝ) := by
    norm_cast
    exact Int.toNat_of_nonneg h0
  rw [h1]
  exact Int.floor_le x

lemma toNat_floor_mul_exact (n c : ℕ) (hn : 0 < n) :
    ⌊(n : ℝ) * ((c : ℝ) / (n : ℝ))⌋.toNat = c := by
  have hn0 : (n : ℝ) ≠ 0 := Nat.cast_ne_zero.2 (Nat.pos_iff_ne_zero.1 hn)
  have : (n : ℝ) * ((c : ℝ) / (n : ℝ)) = (c : ℝ) := by field_simp
  rw [this, Int.floor_natCast, Int.toNat_natCast]

lemma toNat_floor_mul_le_self (n : ℕ) (r : ℝ) (h1 : r ≤ 1) : ⌊(n : ℝ) * r⌋.toNat ≤ n :=
  toNat_floor_le_of_le (by
    calc (n : ℝ) * r ≤ (n : ℝ) * 1 :=
          mul_le_mul_of_nonneg_left h1 (Nat.cast_nonneg n)
      _ = (n : ℝ) := mul_one _)

/-- In the sqrt branch, the product of the floored downscaled dimensions
satisfies the buffer budget. -/
lemma floor_sqrt_prod_le (w h mbuf : ℕ)
    (hbuf : (mbuf : ℝ) ≤ (w : ℝ) * (h : ℝ) * 4) (hpos : (0 : ℝ) < (mbuf : ℝ)) :
    ⌊(w : ℝ) * Real.sqrt ((mbuf : ℝ) / ((w : ℝ) * (h : ℝ) * 4))⌋.toNat
      * ⌊(h : ℝ) * Real.sqrt ((mbuf : ℝ) / ((w : ℝ) * (h : ℝ) * 4))⌋.toNat
      * 4 ≤ mbuf := by
  set x : ℝ := (w : ℝ) * (h : ℝ) * 4 with hx_def
  have hx : (0 : ℝ) < x := lt_of_lt_of_le hpos hbuf
  set q : ℝ := (mbuf : ℝ) / x with hq_def
  have hq0 : 0 ≤ q := div_nonneg hpos.le hx.le
  set r : ℝ := Real.sqrt q with hr_def
  have hr0 : 0 ≤ r := Real.sqrt_nonneg q
  have hwr : 0 ≤ (w : ℝ) * r := mul_nonneg (Nat.cast_nonneg w) hr0
  have hhr : 0 ≤ (h : ℝ) * r := mul_nonneg (Nat.cast_nonneg h) hr0
  have ha : ((⌊(w : ℝ) * r⌋.toNat : ℕ) : ℝ) ≤ (w : ℝ) * r := toNat_floor_cast_le hwr
  have hb : ((⌊(h : ℝ) * r⌋.toNat : ℕ) : ℝ) ≤ (h : ℝ) * r := toNat_floor_cast_le hhr
  have key : ((w : ℝ) * r) * ((h : ℝ) * r) * 4 = (mbuf : ℝ) := by
    have hsq : r ^ 2 = q := Real.sq_sqrt hq0
    have : ((w : ℝ) * r) * ((h : ℝ) * r) * 4 = x * r ^ 2 := by
      rw [hx_def]; ring
    rw [this, hsq, hq_def, ← mul_div_assoc, mul_div_cancel_left₀ _ (ne_of_gt hx)]
  have hcast :
      ((⌊(w : ℝ) * r⌋.toNat * ⌊(h : ℝ) * r⌋.toNat * 4 : ℕ) : ℝ) ≤ (mbuf : ℝ) := by
    push_cast
    calc ((⌊(w : ℝ) * r⌋.toNat : ℕ) : ℝ) * ((⌊(h : ℝ) * r⌋.toNat : ℕ) : ℝ) * 4
        ≤ ((w : ℝ) * r) * ((h : ℝ) * r) * 4 := by
          apply mul_le_mul_of_nonneg_right _ (by norm_num)
          exact mul_le_mul ha hb (Nat.cast_nonneg _) hwr
      _ = (mbuf : ℝ) := key
  exact_mod_cast hcast

/-! Branch evaluation lemmas for get_valid_dimensions. -/

lemma valid_dims_eval_canvas_w (w h mbuf mcanvas : ℕ) (hcw : mcanvas < w) :
    get_valid_dimensions w h mbuf mcanvas
      = (⌊(w : ℝ) * ((mcanvas : ℝ) / (w : ℝ))⌋.toNat,
         ⌊(h : ℝ) * ((mcanvas : ℝ) / (w : ℝ))⌋.toNat) := by
  simp only [get_valid_dimensions, if_pos hcw]

lemma valid_dims_eval_canvas_h (w h mbuf mcanvas : ℕ)
    (hw : w ≤ mcanvas) (hch : mcanvas < h) :
    get_valid_dimensions w h mbuf mcanvas
      = (⌊(w : ℝ) * ((mcanvas : ℝ) / (h : ℝ))⌋.toNat,
         ⌊(h : ℝ) * ((mcanvas : ℝ) / (h : ℝ))⌋.toNat) := by
  simp only [get_valid_dimensions, if_neg (not_lt.2 hw), if_pos hch]

lemma valid_dims_eval_buffer (w h mbuf mcanvas : ℕ)
    (hw : w ≤ mcanvas) (hh : h ≤ mcanvas)
    (hbuf : mbuf ≤ w * h * 4) (hwrap : w * h * 4 < U32) :
    get_valid_dimensions w h mbuf mcanvas
      = (⌊(w : ℝ) * Real.sqrt ((mbuf : ℝ) / ((w : ℝ) * (h : ℝ) * 4))⌋.toNat,
         ⌊(h : ℝ) * Real.sqrt ((mbuf : ℝ) / ((w : ℝ) * (h : ℝ) * 4))⌋.toNat) := by
  have hmod : u32 (w * h * 4) = w * h * 4 := Nat.mod_eq_of_lt hwrap
  have hcastx : ((w * h * 4 : ℕ) : ℝ) = (w : ℝ) * (h : ℝ) * 4 := by push_cast; ring
  simp only [get_valid_dimensions, hmod, if_neg (not_lt.2 hw), if_neg (not_lt.2 hh),
    if_pos hbuf, hcastx]

lemma valid_dims_eval_id (w h mbuf mcanvas : ℕ)
    (hw : w ≤ mcanvas) (hh : h ≤ mcanvas)
    (hbuf : w * h * 4 < mbuf) (hwrap : w * h * 4 < U32) :
    get_valid_dimensions w h mbuf mcanvas = (w, h) := by
  have hmod : u32 (w * h * 4) = w * h * 4 := Nat.mod_eq_of_lt hwrap
  simp only [get_valid_dimensions, hmod, if_neg (not_lt.2 hw), if_neg (not_lt.2 hh),
    if_neg (not_le.2 hbuf), mul_one, Int.floor_natCast, Int.toNat_natCast]

/-- Claim C4, counterexample: with maxCanvasSize = 8192 and requested
dimensions w = 10000, h = 20000 (buffer limit 2^40 so only the canvas
branch fires), the code picks ratio maxCanvasSize/w — not
maxCanvasSize/max(w,h) — because the w-branch is tested first, and the
returned height 16384 exceeds maxCanvasSize. -/
theorem C4_counterexample :
    (8192 < 10000 ∨ 8192 < 20000) ∧
    get_valid_dimensions 10000 20000 (2 ^ 40) 8192 = (8192, 16384) ∧
    ¬ (get_valid_dimensions 10000 20000 (2 ^ 40) 8192).2 ≤ 8192 := by
  have hval : get_valid_dimensions 10000 20000 (2 ^ 40) 8192 = (8192, 16384) := by
    rw [valid_dims_eval_canvas_w 10000 20000 (2 ^ 40) 8192 (by norm_num)]
    have e1 : ((10000 : ℕ) : ℝ) * (((8192 : ℕ) : ℝ) / ((10000 : ℕ) : ℝ))
        = ((8192 : ℕ) : ℝ) := by norm_num
    have e2 : ((20000 : ℕ) : ℝ) * (((8192 : ℕ) : ℝ) / ((10000 : ℕ) : ℝ))
        = ((16384 : ℕ) : ℝ) := by norm_num
    rw [e1, e2, Int.floor_natCast, Int.floor_natCast, Int.toNat_natCast,
      Int.toNat_natCast]
  exact ⟨Or.inl (by norm_num), hval, by rw [hval]; norm_num⟩

/-- Claim C4, amended: get_valid_dimensions downscales by
maxCanvasSize/w when w exceeds maxCanvasSize and otherwise by
maxCanvasSize/h; this coincides with the single ratio
maxCanvasSize/max(w,h) — and both returned dimensions are at most
maxCanvasSize — provided h is at most w or w is within maxCanvasSize
(it fails when maxCanvasSize separates w below h). -/
theorem C4_canvas_downscale (w h mbuf mcanvas : ℕ)
    (hex : mcanvas < w ∨ mcanvas < h) (hdom : h ≤ w ∨ w ≤ mcanvas) :
    get_valid_dimensions w h mbuf mcanvas
      = (⌊(w : ℝ) * ((mcanvas : ℝ) / ((max w h : ℕ) : ℝ))⌋.toNat,
         ⌊(h : ℝ) * ((mcanvas : ℝ) / ((max w h : ℕ) : ℝ))⌋.toNat) ∧
    (get_valid_dimensions w h mbuf mcanvas).1 ≤ mcanvas ∧
    (get_valid_dimensions w h mbuf mcanvas).2 ≤ mcanvas := by
  by_cases hcw : mcanvas < w
  · have hhw : h ≤ w := by
      rcases hdom with h1 | h1
      · exact h1
      · omega
    have hmax : max w h = w := max_eq_left hhw
    have hw0 : 0 < w := by omega
    have hw0r : (0 : ℝ) < (w : ℝ) := by exact_mod_cast hw0
    have hval := valid_dims_eval_canvas_w w h mbuf mcanvas hcw
    have hfst : ⌊(w : ℝ) * ((mcanvas : ℝ) / (w : ℝ))⌋.toNat = mcanvas :=
      toNat_floor_mul_exact w mcanvas hw0
    have hsnd : ⌊(h : ℝ) * ((mcanvas : ℝ) / (w : ℝ))⌋.toNat ≤ mcanvas := by
      apply toNat_floor_le_of_le
      have hr0 : 0 ≤ (mcanvas : ℝ) / (w : ℝ) :=
        div_nonneg (Nat.cast_nonneg _) hw0r.le
      calc (h : ℝ) * ((mcanvas : ℝ) / (w : ℝ))
          ≤ (w : ℝ) * ((mcanvas : ℝ) / (w : ℝ)) :=
            mul_le_mul_of_nonneg_right (by exact_mod_cast hhw) hr0
        _ = (mcanvas : ℝ) := by field_simp
    refine ⟨by rw [hval, hmax], ?_, ?_⟩
    · rw [hval]; exact hfst.le
    · rw [hval]; exact hsnd
  · have hch : mcanvas < h := by
      rcases hex with h1 | h1
      · omega
      · exact h1
    have hwle : w ≤ mcanvas := le_of_not_lt hcw
    have hwh : w ≤ h := by omega
    have hmax : max w h = h := max_eq_right hwh
    have hh0 : 0 < h := by omega
    have hh0r : (0 : ℝ) < (h : ℝ) := by exact_mod_cast hh0
    have hval := valid_dims_eval_canvas_h w h mbuf mcanvas hwle hch
    have hsnd : ⌊(h : ℝ) * ((mcanvas : ℝ) / (h : ℝ))⌋.toNat = mcanvas :=
      toNat_floor_mul_exact h mcanvas hh0
    have hfst : ⌊(w : ℝ) * ((mcanvas : ℝ) / (h : ℝ))⌋.toNat ≤ mcanvas := by
      apply toNat_floor_le_of_le
      have hr0 : 0 ≤ (mcanvas : ℝ) / (h : ℝ) :=
        div_nonneg (Nat.cast_nonneg _) hh0r.le
      calc (w : ℝ) * ((mcanvas : ℝ) / (h : ℝ))
          ≤ (h : ℝ) * ((mcanvas : ℝ) / (h : ℝ)) :=
            mul_le_mul_of_nonneg_right (by exact_mod_cast hwh) hr0
        _ = (mcanvas : ℝ) := by field_simp
    refine ⟨by rw [hval, hmax], ?_, ?_⟩
    · rw [hval]; exact hfst
    · rw [hval]; exact hsnd.le

/-- Witness for the amended C4 theorem at w = 10000, h = 5000,
maxCanvasSize = 8192. -/
theorem C4_canvas_downscale_witness :
    ((8192 < 10000 ∨ 8192 < 5000) ∧ (5000 ≤ 10000 ∨ 10000 ≤ 8192)) ∧
    (get_valid_dimensions 10000 5000 (2 ^ 40) 8192
        = (⌊((10000 : ℕ) : ℝ)
              * (((8192 : ℕ) : ℝ) / ((max 10000 5000 : ℕ) : ℝ))⌋.toNat,
           ⌊((5000 : ℕ) : ℝ)
              * (((8192 : ℕ) : ℝ) / ((max 10000 5000 : ℕ) : ℝ))⌋.toNat) ∧
     (get_valid_dimensions 10000 5000 (2 ^ 40) 8192).1 ≤ 8192 ∧
     (get_valid_dimensions 10000 5000 (2 ^ 40) 8192).2 ≤ 8192) :=
  ⟨⟨Or.inl (by decide), Or.inl (by decide)⟩,
   C4_canvas_downscale 10000 5000 (2 ^ 40) 8192
     (Or.inl (by decide)) (Or.inl (by decide))⟩

/-- Claim C5, counterexample: with w = h = 10000, maxBufferSize = 128MB and
maxCanvasSize = 8192, the implied buffer size 400MB exceeds maxBufferSize,
yet the canvas branch overwrites the sqrt ratio, the result is
(8192, 8192), and 8192*8192*4 = 256MB still exceeds maxBufferSize,
refuting the claim that the returned dimensions always satisfy the buffer
budget. -/
theorem C5_counterexample :
    134217728 ≤ 10000 * 10000 * 4 ∧
    get_valid_dimensions 10000 10000 134217728 8192 = (8192, 8192) ∧
    ¬ ((get_valid_dimensions 10000 10000 134217728 8192).1
        * (get_valid_dimensions 10000 10000 134217728 8192).2 * 4
        ≤ 134217728) := by
  have hval : get_valid_dimensions 10000 10000 134217728 8192 = (8192, 8192) := by
    rw [valid_dims_eval_canvas_w 10000 10000 134217728 8192 (by norm_num)]
    have e1 : ((10000 : ℕ) : ℝ) * (((8192 : ℕ) : ℝ) / ((10000 : ℕ) : ℝ))
        = ((8192 : ℕ) : ℝ) := by norm_num
    rw [e1, Int.floor_natCast, Int.toNat_natCast]
  exact ⟨by norm_num, hval, by rw [hval]; norm_num⟩

/-- Claim C5, amended: when the (non-wrapping) implied buffer size w*h*4
reaches maxBufferSize and neither dimension exceeds maxCanvasSize (so the
canvas branch does not overwrite the ratio), get_valid_dimensions
downscales both dimensions by sqrt(maxBufferSize/(w*h*4)) and the result
satisfies width*height*4 at most maxBufferSize. -/
theorem C5_buffer_downscale (w h mbuf mcanvas : ℕ)
    (hw : w ≤ mcanvas) (hh : h ≤ mcanvas)
    (hbuf : mbuf ≤ w * h * 4) (hwrap : w * h * 4 < U32) (hpos : 0 < mbuf) :
    get_valid_dimensions w h mbuf mcanvas
      = (⌊(w : ℝ) * Real.sqrt ((mbuf : ℝ) / ((w : ℝ) * (h : ℝ) * 4))⌋.toNat,
         ⌊(h : ℝ) * Real.sqrt ((mbuf : ℝ) / ((w : ℝ) * (h : ℝ) * 4))⌋.toNat) ∧
    (get_valid_dimensions w h mbuf mcanvas).1
      * (get_valid_dimensions w h mbuf mcanvas).2 * 4 ≤ mbuf := by
  have hval := valid_dims_eval_buffer w h mbuf mcanvas hw hh hbuf hwrap
  have hbufr : (mbuf : ℝ) ≤ (w : ℝ) * (h : ℝ) * 4 := by
    exact_mod_cast hbuf
  refine ⟨hval, ?_⟩
  rw [hval]
  exact floor_sqrt_prod_le w h mbuf hbufr (by exact_mod_cast hpos)

/-- Witness for the amended C5 theorem at w = h = 8000,
maxBufferSize = 128MB, maxCanvasSize = 8192. -/
theorem C5_buffer_downscale_witness :
    (8000 ≤ 8192 ∧ 8000 ≤ 8192 ∧ 134217728 ≤ 8000 * 8000 * 4 ∧
     8000 * 8000 * 4 < U32 ∧ 0 < 134217728) ∧
    (get_valid_dimensions 8000 8000 134217728 8192
        = (⌊((8000 : ℕ) : ℝ)
              * Real.sqrt (((134217728 : ℕ) : ℝ)
                  / (((8000 : ℕ) : ℝ) * ((8000 : ℕ) : ℝ) * 4))⌋.toNat,
           ⌊((8000 : ℕ) : ℝ)
              * Real.sqrt (((134217728 : ℕ) : ℝ)
                  / (((8000 : ℕ) : ℝ) * ((8000 : ℕ) : ℝ) * 4))⌋.toNat) ∧
     (get_valid_dimensions 8000 8000 134217728 8192).1
       * (get_valid_dimensions 8000 8000 134217728 8192).2 * 4 ≤ 134217728) :=
  ⟨⟨by decide, by decide, by decide, by decide, by decide⟩,
   C5_buffer_downscale 8000 8000 134217728 8192
     (by decide) (by decide) (by decide) (by decide) (by decide)⟩

/-- Any dimension pair in which at least one side of the 2048 budget holds
is clamped by get_valid_dimensions (with the 128MB / 8192 device limits)
to dimensions within both limits. -/
lemma valid_dims_within (w h : ℕ) (hyp : h ≤ 2048 ∨ w ≤ 2048) :
    (get_valid_dimensions w h 134217728 8192).1
      * (get_valid_dimensions w h 134217728 8192).2 * 4 ≤ 134217728 ∧
    (get_valid_dimensions w h 134217728 8192).1 ≤ 8192 ∧
    (get_valid_dimensions w h 134217728 8192).2 ≤ 8192 := by
  by_cases hcw : 8192 < w
  · have hh2048 : h ≤ 2048 := by
      rcases hyp with h1 | h1
      · exact h1
      · omega
    have hw0 : 0 < w := by omega
    have hw0r : (0 : ℝ) < (w : ℝ) := by exact_mod_cast hw0
    have hval := valid_dims_eval_canvas_w w h 134217728 8192 hcw
    have hr1 : ((8192 : ℕ) : ℝ) / (w : ℝ) ≤ 1 :=
      (div_le_one hw0r).2 (by exact_mod_cast hcw.le)
    have hfst : ⌊(w : ℝ) * (((8192 : ℕ) : ℝ) / (w : ℝ))⌋.toNat = 8192 :=
      toNat_floor_mul_exact w 8192 hw0
    have hsnd : ⌊(h : ℝ) * (((8192 : ℕ) : ℝ) / (w : ℝ))⌋.toNat ≤ 2048 := by
      apply toNat_floor_le_of_le
      calc (h : ℝ) * (((8192 : ℕ) : ℝ) / (w : ℝ))
          ≤ (h : ℝ) * 1 := mul_le_mul_of_nonneg_left hr1 (Nat.cast_nonneg h)
        _ = (h : ℝ) := mul_one _
        _ ≤ ((2048 : ℕ) : ℝ) := by exact_mod_cast hh2048
    rw [hval]
    refine ⟨?_, ?_, ?_⟩
    · have h4 : ⌊(w : ℝ) * (((8192 : ℕ) : ℝ) / (w : ℝ))⌋.toNat
          * ⌊(h : ℝ) * (((8192 : ℕ) : ℝ) / (w : ℝ))⌋.toNat
          ≤ 8192 * 2048 := by
        rw [hfst]
        exact Nat.mul_le_mul_left 8192 hsnd
      calc ⌊(w : ℝ) * (((8192 : ℕ) : ℝ) / (w : ℝ))⌋.toNat
            * ⌊(h : ℝ) * (((8192 : ℕ) : ℝ) / (w : ℝ))⌋.toNat * 4
          ≤ 8192 * 2048 * 4 := Nat.mul_le_mul_right 4 h4
        _ ≤ 134217728 := by norm_num
    · rw [hfst]
    · exact hsnd.trans (by norm_num)
  · by_cases hch : 8192 < h
    · have hw2048 : w ≤ 2048 := by
        rcases hyp with h1 | h1
        · omega
        · exact h1
      have hh0 : 0 < h := by omega
      have hh0r : (0 : ℝ) < (h : ℝ) := by exact_mod_cast hh0
      have hval := valid_dims_eval_canvas_h w h 134217728 8192
        (le_of_not_lt hcw) hch
      have hr1 : ((8192 : ℕ) : ℝ) / (h : ℝ) ≤ 1 :=
        (div_le_one hh0r).2 (by exact_mod_cast hch.le)
      have hsnd : ⌊(h : ℝ) * (((8192 : ℕ) : ℝ) / (h : ℝ))⌋.toNat = 8192 :=
        toNat_floor_mul_exact h 8192 hh0
      have hfst : ⌊(w : ℝ) * (((8192 : ℕ) : ℝ) / (h : ℝ))⌋.toNat ≤ 2048 := by
        apply toNat_floor_le_of_le
        calc (w : ℝ) * (((8192 : ℕ) : ℝ) / (h : ℝ))
            ≤ (w : ℝ) * 1 := mul_le_mul_of_nonneg_left hr1 (Nat.cast_nonneg w)
          _ = (w : ℝ) := mul_one _
          _ ≤ ((2048 : ℕ) : ℝ) := by exact_mod_cast hw2048
      rw [hval]
      refine ⟨?_, ?_, ?_⟩
      · have h4 : ⌊(w : ℝ) * (((8192 : ℕ) : ℝ) / (h : ℝ))⌋.toNat
            * ⌊(h : ℝ) * (((8192 : ℕ) : ℝ) / (h : ℝ))⌋.toNat
            ≤ 2048 * 8192 := by
          rw [hsnd]
          exact Nat.mul_le_mul_right 8192 hfst
        calc ⌊(w : ℝ) * (((8192 : ℕ) : ℝ) / (h : ℝ))⌋.toNat
              * ⌊(h : ℝ) * (((8192 : ℕ) : ℝ) / (h : ℝ))⌋.toNat * 4
            ≤ 2048 * 8192 * 4 := Nat.mul_le_mul_right 4 h4
          _ ≤ 134217728 := by norm_num
      · exact hfst.trans (by norm_num)
      · rw [hsnd]
    · have hw8 : w ≤ 8192 := le_of_not_lt hcw
      have hh8 : h ≤ 8192 := le_of_not_lt hch
      have hwh : w * h ≤ 8192 * 8192 := Nat.mul_le_mul hw8 hh8
      have hwrap : w * h * 4 < U32 := by
        have hU : U32 = 4294967296 := by norm_num [U32]
        omega
      by_cases hbuf : 134217728 ≤ w * h * 4
      · have hval := valid_dims_eval_buffer w h 134217728 8192 hw8 hh8 hbuf hwrap
        have hxr : (0 : ℝ) < (w : ℝ) * (h : ℝ) * 4 := by
          have : (134217728 : ℝ) ≤ (w : ℝ) * (h : ℝ) * 4 := by exact_mod_cast hbuf
          linarith
        have hq1 : ((134217728 : ℕ) : ℝ) / ((w : ℝ) * (h : ℝ) * 4) ≤ 1 :=
          (div_le_one hxr).2 (by exact_mod_cast hbuf)
        have hr1 : Real.sqrt (((134217728 : ℕ) : ℝ) / ((w : ℝ) * (h : ℝ) * 4)) ≤ 1 :=
          Real.sqrt_le_one.2 hq1
        rw [hval]
        refine ⟨?_, ?_, ?_⟩
        · exact floor_sqrt_prod_le w h 134217728
            (by exact_mod_cast hbuf) (by norm_num)
        · exact (toNat_floor_mul_le_self w _ hr1).trans hw8
        · exact (toNat_floor_mul_le_self h _ hr1).trans hh8
      · have hval := valid_dims_eval_id w h 134217728 8192 hw8 hh8
          (by omega) hwrap
        rw [hval]
        refine ⟨?_, hw8, hh8⟩
        show w * h * 4 ≤ 134217728
        omega

/-- Any requested size within the 2048 dye budget is fitted to the surface
and clamped within both device limits, whatever the surface dimensions. -/
lemma preferred_dims_within (size surface_w surface_h : ℕ) (hs : size ≤ 2048) :
    (get_preferred_dimensions size surface_w surface_h 134217728 8192).1
      * (get_preferred_dimensions size surface_w surface_h 134217728 8192).2 * 4
      ≤ 134217728 ∧
    (get_preferred_dimensions size surface_w surface_h 134217728 8192).1 ≤ 8192 ∧
    (get_preferred_dimensions size surface_w surface_h 134217728 8192).2 ≤ 8192 := by
  by_cases hb : surface_h < surface_w
  · simp only [get_preferred_dimensions, if_pos hb]
    exact valid_dims_within _ _ (Or.inl hs)
  · simp only [get_preferred_dimensions, if_neg hb]
    exact valid_dims_within _ _ (Or.inr hs)

/-- Claim C10: with grid_size = 512, dye_size = 2048,
maxStorageBufferBindingSize = 128MB and maxTextureDimension2D = 8192,
init_sizes yields (grid_w, grid_h) and (dye_w, dye_h) with
w*h*4 at most 128MB and w, h at most 8192, for every surface width and
height. -/
theorem C10_init_sizes_within_limits (surface_w surface_h : ℕ) :
    ((init_sizes surface_w surface_h 134217728 8192).1.1
        * (init_sizes surface_w surface_h 134217728 8192).1.2 * 4
        ≤ 134217728 ∧
     (init_sizes surface_w surface_h 134217728 8192).1.1 ≤ 8192 ∧
     (init_sizes surface_w surface_h 134217728 8192).1.2 ≤ 8192) ∧
    ((init_sizes surface_w surface_h 134217728 8192).2.1
        * (init_sizes surface_w surface_h 134217728 8192).2.2 * 4
        ≤ 134217728 ∧
     (init_sizes surface_w surface_h 134217728 8192).2.1 ≤ 8192 ∧
     (init_sizes surface_w surface_h 134217728 8192).2.2 ≤ 8192) := by
  simp only [init_sizes]
  exact ⟨preferred_dims_within settings_grid_size surface_w surface_h (by decide),
         preferred_dims_within settings_dye_size surface_w surface_h (by decide)⟩

end FluidSim
